import Mathlib

/-!
Shallow embedding of the ForviaGENCAD groove/clip generation system:
the data model and operations of groove_generator.py, clip_generator.py
and gen_cad_pipeline.py.  Dimensions are modelled as exact rationals;
geometric shapes are abstracted by the exact coordinate spans they occupy,
read off the kernel primitive calls in the source.  External geometry
kernel outcomes (validity analysis, boolean completion, offset completion,
surface queries) are oracle fields of a pipeline environment, so that the
control flow of run_pipeline is modelled exactly while the kernel itself
stays abstract.
-/

/-- Shape kinds of the GrooveType enum (groove_generator.py, lines 27-31). -/
inductive GrooveType where
  | RECTANGULAR
  | CIRCULAR
  | SQUARE
  | TRIANGLE
deriving DecidableEq

/-- The GrooveParameters dataclass (groove_generator.py, lines 33-40),
with the dataclass defaults. -/
structure GrooveParameters where
  width : ℚ := 2
  depth : ℚ := 1
  height : ℚ := 10
  length : ℚ := 10
  type : GrooveType := GrooveType.RECTANGULAR
  fillet_radius : ℚ := 0
deriving DecidableEq

/-- The ClipParameters dataclass (clip_generator.py, lines 21-27),
with the dataclass defaults. -/
structure ClipParameters where
  groove_params : GrooveParameters
  height : ℚ
  assembly_clearance : ℚ := 1/5
  retention_offset : ℚ := 1/10
deriving DecidableEq

/-- ClipParameters.validate (clip_generator.py, lines 29-49): returns the
pair (ok, message) exactly as the Python method returns a tuple, with the
same branch order and the same message text (rational values printed in
place of the Python float formatting). -/
def ClipParameters.validate (p : ClipParameters) : Bool × String :=
  if p.height ≤ 0 then
    (false, "Clip height must be positive")
  else if p.assembly_clearance ≥ p.groove_params.width then
    (false, "Assembly clearance (" ++ toString p.assembly_clearance ++
      "mm) must be less than groove width (" ++ toString p.groove_params.width ++ "mm)")
  else if p.retention_offset ≥ p.groove_params.depth then
    (false, "Retention offset (" ++ toString p.retention_offset ++
      "mm) must be less than groove depth (" ++ toString p.groove_params.depth ++ "mm)")
  else
    let clip_width := p.groove_params.width - p.assembly_clearance
    let clip_depth := p.groove_params.depth - p.retention_offset
    if clip_width ≤ 0 then
      (false, "Calculated clip width (" ++ toString clip_width ++ "mm) must be positive")
    else if clip_depth ≤ 0 then
      (false, "Calculated clip depth (" ++ toString clip_depth ++ "mm) must be positive")
    else
      (true, "Valid")

/-- ClipGenerator.derive_from_groove (clip_generator.py, lines 62-85), as a
pure function of the clip parameters (the memoization in the Python class
caches exactly this value). -/
def derive_from_groove (p : ClipParameters) : GrooveParameters :=
  let clip_width := p.groove_params.width - p.assembly_clearance
  let clip_depth := p.groove_params.depth - p.retention_offset
  { width := clip_width
    depth := clip_depth
    height := p.height
    length := p.height
    type := p.groove_params.type
    fillet_radius :=
      if p.groove_params.fillet_radius > 0 then
        p.groove_params.fillet_radius * (clip_width / p.groove_params.width)
      else 0 }

/-- Bounding extent along the local Y (height) axis of the shape built by
GrooveGenerator.create_shape (groove_generator.py, lines 46-136), read off
the kernel primitive calls: the rectangular box spans Y from -length/2 to
length/2 (lines 59-62), the cylinder has radius width/2 about the Z axis
(lines 70-74), the square box spans Y from -width/2 to width/2 (lines
83-86), and the triangular prism is extruded by the vector (0, length, 0)
and then translated by -length/2 along Y (lines 124-134). -/
def boundingYExtent (p : GrooveParameters) : ℚ :=
  match p.type with
  | GrooveType.RECTANGULAR => p.length
  | GrooveType.CIRCULAR => p.width
  | GrooveType.SQUARE => p.width
  | GrooveType.TRIANGLE => p.length

/-- Span along the local Z (depth) axis of the shape built by
GrooveGenerator.create_shape, as the pair (far coordinate, near
coordinate).  Rectangular box: corner Z = -depth, Z-edge length depth
(lines 59-62).  Cylinder: base plane Z = -depth, height depth along +Z
(lines 70-74).  Square box: corner Z = -depth, Z-edge length depth (lines
83-86).  Triangular prism: the base edge lies at Z = -depth and the apex at
Z = -depth + width * sqrt 3 / 2 (lines 101-106); the Y-extrusion does not
move Z. -/
noncomputable def grooveZSpan (p : GrooveParameters) : ℝ × ℝ :=
  match p.type with
  | GrooveType.RECTANGULAR => (-(p.depth : ℝ), 0)
  | GrooveType.CIRCULAR => (-(p.depth : ℝ), 0)
  | GrooveType.SQUARE => (-(p.depth : ℝ), 0)
  | GrooveType.TRIANGLE =>
      (-(p.depth : ℝ), -(p.depth : ℝ) + (p.width : ℝ) * Real.sqrt 3 / 2)

/-- A point of 3-space, used for the triangle profile vertices. -/
structure Pnt3 where
  x : ℝ
  y : ℝ
  z : ℝ

/-- The three vertices p1, p2, p3 of the triangular profile built by
GrooveGenerator.create_shape for GrooveType.TRIANGLE (groove_generator.py,
lines 101-106): p1 = (-width/2, 0, -depth), p2 = (width/2, 0, -depth),
p3 = (0, 0, -depth + h) with h = width * sqrt 3 / 2. -/
noncomputable def triangleVertices (p : GrooveParameters) : Pnt3 × Pnt3 × Pnt3 :=
  (⟨-(p.width : ℝ) / 2, 0, -(p.depth : ℝ)⟩,
   ⟨(p.width : ℝ) / 2, 0, -(p.depth : ℝ)⟩,
   ⟨0, 0, -(p.depth : ℝ) + (p.width : ℝ) * Real.sqrt 3 / 2⟩)

/-- The triangle vertices as the specification describes them: vertices at
(-width/2, 0, 0), (width/2, 0, 0) and (0, 0, -width * sqrt 3 / 2).  This
definition follows the words of the spec, to be compared with
triangleVertices, which is read off the code. -/
noncomputable def specTriangleVertices (w : ℚ) : Pnt3 × Pnt3 × Pnt3 :=
  (⟨-(w : ℝ) / 2, 0, 0⟩,
   ⟨(w : ℝ) / 2, 0, 0⟩,
   ⟨0, 0, -((w : ℝ) * Real.sqrt 3 / 2)⟩)

/-- Z-span of the shape returned by ClipGenerator.create_shape
(clip_generator.py, lines 87-115): the shape of the derived groove
parameters, translated by -retention_offset along Z when the offset is
nonzero (the transform at lines 106-113 is only applied in that case). -/
noncomputable def clipZSpan (p : ClipParameters) : ℝ × ℝ :=
  let base := grooveZSpan (derive_from_groove p)
  if p.retention_offset ≠ 0 then
    (base.1 - (p.retention_offset : ℝ), base.2 - (p.retention_offset : ℝ))
  else
    base

/-- The fixed list of reference anchor points REFERENCE_CENTROIDS
(gen_cad_pipeline.py, lines 41-49): seven 3D points. -/
def REFERENCE_CENTROIDS : List (ℚ × ℚ × ℚ) :=
  [(59611/100, 73690/100, 56751/100),
   (63655/100, 72073/100, 62151/100),
   (63255/100, 72938/100, 74743/100),
   (61676/100, 72860/100, 73997/100),
   (67699/100, 70109/100, 75884/100),
   (65810/100, 70792/100, 79784/100),
   (62397/100, 71739/100, 81996/100)]

/-- The runtime parameter dictionary consumed by run_pipeline
(gen_cad_pipeline.py, lines 67, 153-167, 185; collected in
runtime_input.py, lines 234-244). -/
structure RuntimeParams where
  thickness : ℚ
  groove_count : ℕ
  groove_shape : GrooveType
  groove_height : ℚ
  groove_width : ℚ
  groove_depth : ℚ
  clip_height : ℚ
  assembly_clearance : ℚ
  retention_offset : ℚ

/-- Oracle environment for the external geometry kernel: each field records
the outcome the kernel reports for one of the external calls made by
gen_cad_pipeline.py.  Shapes are abstract values of a type S. -/
structure PipelineEnv (S : Type) where
  readStatus : ℤ
  inputShape : S
  valid : S → Bool
  thickenDone : ℚ → Bool
  thickenShape : ℚ → S
  volume : S → ℚ
  reverse : S → S
  frameFound : ℕ → Bool
  placedGroove : ℕ → S
  placedClip : ℕ → S
  fuseDone : S → S → Bool
  fuse : S → S → S
  cutDone : S → S → Bool
  cut : S → S → S
  writeStatus : S → ℤ

/-- Observable outcome of run_pipeline: the returned (success, message)
pair plus bookkeeping of what the run did, for stating control-flow
properties. -/
structure PipeResult (S : Type) where
  success : Bool
  message : String
  exported : Bool := false
  finalShape : Option S := none
  reversedOrientation : Bool := false
  thickenTried : List ℚ := []
  placementsAttempted : ℕ := 0
  featureShapesBuilt : ℕ := 0

/-- The local helper thicken of run_pipeline (gen_cad_pipeline.py, lines
106-115): one offset attempt, returning the shape when the builder reports
done and None otherwise. -/
def thickenAttempt {S : Type} (env : PipelineEnv S) (t : ℚ) : Option S :=
  if env.thickenDone t then some (env.thickenShape t) else none

/-- The volume inspection after thickening (gen_cad_pipeline.py, lines
127-131): when the signed volume is negative the orientation of the body
is reversed; the second component records whether a reversal happened. -/
def orientFix {S : Type} (env : PipelineEnv S) (b : S) : S × Bool :=
  if env.volume b < 0 then (env.reverse b, true) else (b, false)

/-- The pairwise pre-combination of tool shapes into one compound tool by
successive fuzzy fuses (gen_cad_pipeline.py, lines 217-222 and 244-249):
each fuse that reports done replaces the accumulator, a fuse that does not
leaves it unchanged. -/
def combineByFuse {S : Type} (env : PipelineEnv S) : S → List S → S
  | acc, [] => acc
  | acc, t :: ts =>
      combineByFuse env (if env.fuseDone acc t then env.fuse acc t else acc) ts

/-- OCCT semantics of line 226 of gen_cad_pipeline.py: the expression
GProp_GProps().Mass() reads the mass of a freshly default-constructed
GProp_GProps object, which is zero (no properties have been added to it). -/
def freshGPropMass : ℚ := 0

/-- The groove cavity-subtraction stage (gen_cad_pipeline.py, lines
211-238): bulk strategy first (combine tools, one cut, accepted when the
cut reports done and the fresh-GProp mass is nonzero), otherwise the
sequential per-tool fallback in which a cut that does not report done
leaves the running result unchanged. -/
def grooveCutStage {S : Type} (env : PipelineEnv S) (body : S) (tools : List S) : S :=
  match tools with
  | [] => body
  | t0 :: rest =>
      let tool_body := combineByFuse env t0 rest
      if env.cutDone body tool_body = true ∧ freshGPropMass ≠ 0 then
        env.cut body tool_body
      else
        tools.foldl
          (fun temp tool => if env.cutDone temp tool then env.cut temp tool else temp) body

/-- The clip protrusion-union stage (gen_cad_pipeline.py, lines 240-264):
bulk strategy first (combine clips, one fuse, accepted when the fuse
reports done), otherwise the sequential per-clip fallback in which a fuse
that does not report done leaves the running result unchanged. -/
def clipFuseStage {S : Type} (env : PipelineEnv S) (body : S) (clips : List S) : S :=
  match clips with
  | [] => body
  | c0 :: rest =>
      let clip_body := combineByFuse env c0 rest
      if env.fuseDone body clip_body then
        env.fuse body clip_body
      else
        clips.foldl
          (fun temp c => if env.fuseDone temp c then env.fuse temp c else temp) body

/-- The groove parameters built by run_pipeline from the runtime inputs
(gen_cad_pipeline.py, lines 153-159): length is set to the groove height
and the fillet radius is left at its dataclass default. -/
def groove_params_of (rp : RuntimeParams) : GrooveParameters :=
  { width := rp.groove_width
    depth := rp.groove_depth
    height := rp.groove_height
    length := rp.groove_height
    type := rp.groove_shape
    fillet_radius := 0 }

/-- The clip parameters built by run_pipeline from the runtime inputs
(gen_cad_pipeline.py, lines 162-167). -/
def clip_params_of (rp : RuntimeParams) : ClipParameters :=
  { groove_params := groove_params_of rp
    height := rp.clip_height
    assembly_clearance := rp.assembly_clearance
    retention_offset := rp.retention_offset }

/-- Phases 4 (placement loop and boolean stages), 5 and 6 of run_pipeline
(gen_cad_pipeline.py, lines 176-295), entered once the clip validation
gate has passed: ob is the oriented thickened body paired with the
orientation-reversal flag, tried the list of offsets attempted by phase 2.
The placement loop runs over the first groove_count reference centroids;
a location whose frame resolution fails contributes no tool shape, a
resolved one contributes one groove and one clip shape.  Phase 5 computes
the validity of the final solid but its result is not used (line 270).
Phase 6 always runs and the write status decides the returned pair. -/
def pipelinePhase6 {S : Type} (env : PipelineEnv S) (rp : RuntimeParams)
    (ob : S × Bool) (tried : List ℚ) : PipeResult S :=
  let locations := REFERENCE_CENTROIDS.take rp.groove_count
  let placedIdxs := (List.range locations.length).filter env.frameFound
  let grooves_to_cut := placedIdxs.map env.placedGroove
  let clips_to_fuse := placedIdxs.map env.placedClip
  let afterCut := grooveCutStage env ob.1 grooves_to_cut
  let final_solid := clipFuseStage env afterCut clips_to_fuse
  let _phase5Valid := env.valid final_solid
  if env.writeStatus final_solid = 1 then
    { success := true, message := "Success", exported := true,
      finalShape := some final_solid, reversedOrientation := ob.2,
      thickenTried := tried, placementsAttempted := locations.length,
      featureShapesBuilt := 2 * placedIdxs.length }
  else
    { success := false, message := "Export Failed", exported := true,
      finalShape := some final_solid, reversedOrientation := ob.2,
      thickenTried := tried, placementsAttempted := locations.length,
      featureShapesBuilt := 2 * placedIdxs.length }

/-- run_pipeline (gen_cad_pipeline.py, lines 63-295), phase by phase.
Phase 1: read status and input validity gates.  Phase 2: thicken with
negative offset, retry positive, both failing is fatal; then the signed
volume inspection with orientation reversal.  Phase 3 only emits a warning
and is not modelled.  Phase 4: clip parameter validation gate, then the
placement loop over the first groove_count reference centroids (a location
whose frame resolution fails is skipped; a resolved location builds one
groove and one clip shape), then the two boolean stages.  Phase 5 calls
the validity check on the final solid; its boolean result is bound but not
used by the code (line 270).  Phase 6 always runs once phase 4 completes,
and the write status decides the returned pair. -/
def run_pipeline {S : Type} (env : PipelineEnv S) (rp : RuntimeParams) : PipeResult S :=
  if env.readStatus ≠ 1 then
    { success := false, message := "Could not read STEP file." }
  else if env.valid env.inputShape = false then
    { success := false, message := "Input geometry corrupted." }
  else
    let attempt1 := thickenAttempt env (-|rp.thickness|)
    let attempt2 := if attempt1.isSome then attempt1 else thickenAttempt env |rp.thickness|
    let tried := if attempt1.isSome then [-|rp.thickness|] else [-|rp.thickness|, |rp.thickness|]
    match attempt2 with
    | none => { success := false, message := "Thickening failed.", thickenTried := tried }
    | some tb =>
        let ob := orientFix env tb
        let v := (clip_params_of rp).validate
        if v.1 = false then
          { success := false, message := "Invalid clip parameters: " ++ v.2,
            thickenTried := tried, reversedOrientation := ob.2 }
        else
          pipelinePhase6 env rp ob tried

/-- Clip parameters with all dataclass defaults and height 10; used as a
concrete valid input. -/
def pDefaults : ClipParameters := { groove_params := {}, height := 10 }

/-- Clip parameters with zero clearance and zero retention offset, as also
used by the repository script verify_clip_height.py. -/
def pZeroClear : ClipParameters :=
  { groove_params := { width := 5, depth := 2 }, height := 10,
    assembly_clearance := 0, retention_offset := 0 }

/-- C4 (amended): whenever ClipParameters.validate succeeds, the assembly
clearance is strictly below the source width, the retention offset is
strictly below the source depth, the derived width and depth are strictly
positive, and the clip height is strictly positive.  Strict positivity of
the clearance and the offset themselves is not guaranteed: validate never
checks a lower bound on them. -/
theorem validate_success_bounds (p : ClipParameters)
    (h : (p.validate).1 = true) :
    p.assembly_clearance < p.groove_params.width ∧
    p.retention_offset < p.groove_params.depth ∧
    0 < p.groove_params.width - p.assembly_clearance ∧
    0 < p.groove_params.depth - p.retention_offset ∧
    0 < p.height := by
  unfold ClipParameters.validate at h
  split_ifs at h with h1 h2 h3
  all_goals try simp at h
  have hcw := lt_of_not_le h2
  have hrd := lt_of_not_le h3
  exact ⟨hcw, hrd, by linarith, by linarith, lt_of_not_le h1⟩

/-- C4 witness: the bounds hold at the concrete valid default parameters. -/
theorem validate_success_bounds_witness :
    pDefaults.assembly_clearance < pDefaults.groove_params.width ∧
    pDefaults.retention_offset < pDefaults.groove_params.depth ∧
    0 < pDefaults.groove_params.width - pDefaults.assembly_clearance ∧
    0 < pDefaults.groove_params.depth - pDefaults.retention_offset ∧
    0 < pDefaults.height :=
  validate_success_bounds pDefaults (by norm_num [ClipParameters.validate, pDefaults])

/-- C4 counterexample: parameters with assemblyClearance = 0 (and
retentionOffset = 0) pass validation, so a successful validation does not
imply 0 < assemblyClearance (nor 0 < retentionOffset), refuting the claim
as stated. -/
theorem validate_zero_clearance_counterexample :
    (pZeroClear.validate).1 = true ∧
    ¬ (0 < pZeroClear.assembly_clearance) ∧
    ¬ (0 < pZeroClear.retention_offset) := by
  refine ⟨by norm_num [ClipParameters.validate, pZeroClear], ?_, ?_⟩ <;>
    norm_num [pZeroClear]

/-- C8: ClipParameters.validate reports failure exactly when one of the
five conditions holds (non-positive clip height, clearance at least the
source width, offset at least the source depth, non-positive derived
width, non-positive derived depth); when the height is positive and the
clearance reaches the width, the returned message names the clearance and
the width; and whenever validation fails, run_pipeline builds no feature
shape, reaches no export, returns failure, and—when the earlier gates
passed—carries exactly the validation message. -/
theorem validate_failure_characterization :
    (∀ p : ClipParameters,
      (p.validate).1 = false ↔
        (p.height ≤ 0 ∨ p.groove_params.width ≤ p.assembly_clearance ∨
         p.groove_params.depth ≤ p.retention_offset ∨
         p.groove_params.width - p.assembly_clearance ≤ 0 ∨
         p.groove_params.depth - p.retention_offset ≤ 0)) ∧
    (∀ p : ClipParameters, 0 < p.height →
      p.groove_params.width ≤ p.assembly_clearance →
      (p.validate).2 =
        "Assembly clearance (" ++ toString p.assembly_clearance ++
          "mm) must be less than groove width (" ++
          toString p.groove_params.width ++ "mm)") ∧
    (∀ (S : Type) (env : PipelineEnv S) (rp : RuntimeParams),
      ((clip_params_of rp).validate).1 = false →
      (run_pipeline env rp).featureShapesBuilt = 0 ∧
      (run_pipeline env rp).exported = false ∧
      (run_pipeline env rp).success = false) ∧
    (∀ (S : Type) (env : PipelineEnv S) (rp : RuntimeParams),
      env.readStatus = 1 → env.valid env.inputShape = true →
      env.thickenDone (-|rp.thickness|) = true →
      ((clip_params_of rp).validate).1 = false →
      (run_pipeline env rp).message =
        "Invalid clip parameters: " ++ ((clip_params_of rp).validate).2) := by
  refine ⟨?_, ?_, ?_, ?_⟩
  · intro p
    unfold ClipParameters.validate
    simp only []
    split_ifs with h1 h2 h3 h4 h5
    · exact iff_of_true rfl (Or.inl h1)
    · exact iff_of_true rfl (Or.inr (Or.inl h2))
    · exact iff_of_true rfl (Or.inr (Or.inr (Or.inl h3)))
    · exact iff_of_true rfl (Or.inr (Or.inr (Or.inr (Or.inl h4))))
    · exact iff_of_true rfl (Or.inr (Or.inr (Or.inr (Or.inr h5))))
    · refine iff_of_false (by simp) ?_
      push_neg
      have hcw := lt_of_not_le h2
      have hrd := lt_of_not_le h3
      exact ⟨lt_of_not_le h1, hcw, hrd, by linarith, by linarith⟩
  · intro p hh hc
    unfold ClipParameters.validate
    rw [if_neg (not_le.mpr hh), if_pos hc]
  · intro S env rp hv
    by_cases hr : env.readStatus = 1
    · by_cases hi : env.valid env.inputShape
      · by_cases h1 : env.thickenDone (-|rp.thickness|)
        · simp [run_pipeline, thickenAttempt, hr, hi, h1, hv]
        · by_cases h2 : env.thickenDone |rp.thickness|
          · simp [run_pipeline, thickenAttempt, hr, hi, h1, h2, hv]
          · simp [run_pipeline, thickenAttempt, hr, hi, h1, h2]
      · have hi' : env.valid env.inputShape = false := by simpa using hi
        simp [run_pipeline, hr, hi']
    · simp [run_pipeline, hr]
  · intro S env rp hr hi h1 hv
    simp [run_pipeline, thickenAttempt, hr, hi, h1, hv]

/-- Runtime parameters matching the end-to-end example of the spec:
thickness 2.65, count 5, rectangular groove 10 x 5 x 2.5, clip height 20,
clearance 0.2, offset 0.1. -/
def rpBase : RuntimeParams :=
  { thickness := 265/100, groove_count := 5,
    groove_shape := GrooveType.RECTANGULAR,
    groove_height := 10, groove_width := 5, groove_depth := 5/2,
    clip_height := 20, assembly_clearance := 1/5, retention_offset := 1/10 }

/-- Runtime parameters whose clip validation fails: clearance 6 against
groove width 5, the validation-rejection example of the spec. -/
def rpBadClearance : RuntimeParams :=
  { rpBase with assembly_clearance := 6 }

/-- Kernel oracle on which every external call reports success, over
shapes modelled as natural-number tokens. -/
def happyEnv : PipelineEnv ℕ :=
  { readStatus := 1
    inputShape := 0
    valid := fun _ => true
    thickenDone := fun _ => true
    thickenShape := fun _ => 1
    volume := fun _ => 1
    reverse := fun s => s + 10
    frameFound := fun _ => true
    placedGroove := fun i => 100 + i
    placedClip := fun i => 200 + i
    fuseDone := fun _ _ => true
    fuse := fun a b => a + b
    cutDone := fun _ _ => true
    cut := fun a b => a + b
    writeStatus := fun _ => 1 }

/-- C8 witness: at clearance 6 against width 5 (height 20), validation
fails, its message names the clearance and the width, and the pipeline
run with those parameters builds no feature shape, does not export, fails,
and reports the validation message. -/
theorem validate_failure_characterization_witness :
    ((clip_params_of rpBadClearance).validate).1 = false ∧
    ((clip_params_of rpBadClearance).validate).2 =
      "Assembly clearance (" ++
        toString (clip_params_of rpBadClearance).assembly_clearance ++
        "mm) must be less than groove width (" ++
        toString (clip_params_of rpBadClearance).groove_params.width ++ "mm)" ∧
    (run_pipeline happyEnv rpBadClearance).featureShapesBuilt = 0 ∧
    (run_pipeline happyEnv rpBadClearance).exported = false ∧
    (run_pipeline happyEnv rpBadClearance).success = false ∧
    (run_pipeline happyEnv rpBadClearance).message =
      "Invalid clip parameters: " ++ ((clip_params_of rpBadClearance).validate).2 := by
  obtain ⟨t1, t2, t3, t4⟩ := validate_failure_characterization
  have hv : ((clip_params_of rpBadClearance).validate).1 = false :=
    (t1 (clip_params_of rpBadClearance)).mpr
      (by norm_num [clip_params_of, groove_params_of, rpBadClearance, rpBase])
  obtain ⟨b1, b2, b3⟩ := t3 ℕ happyEnv rpBadClearance hv
  exact ⟨hv,
    t2 (clip_params_of rpBadClearance)
      (by norm_num [clip_params_of, rpBadClearance, rpBase])
      (by norm_num [clip_params_of, groove_params_of, rpBadClearance, rpBase]),
    b1, b2, b3,
    t4 ℕ happyEnv rpBadClearance rfl rfl rfl hv⟩

/-- Clip parameters whose source groove has a negative fillet radius. -/
def pNegFillet : ClipParameters :=
  { groove_params := { width := 2, depth := 1, fillet_radius := -1 },
    height := 10, assembly_clearance := 1, retention_offset := 1/2 }

/-- C9 (amended): derive_from_groove returns derived width = source width
minus clearance, derived depth = source depth minus offset, the source
shape kind, and—when the source fillet radius is non-negative—fillet
radius = source fillet times (derived width / source width); for a
negative source fillet the code clamps the derived fillet to 0 instead.
Under 0 < clearance < width and 0 < offset < depth the derived width and
depth are strictly positive. -/
theorem derive_from_groove_amended (p : ClipParameters)
    (hf : 0 ≤ p.groove_params.fillet_radius) :
    (derive_from_groove p).width = p.groove_params.width - p.assembly_clearance ∧
    (derive_from_groove p).depth = p.groove_params.depth - p.retention_offset ∧
    (derive_from_groove p).type = p.groove_params.type ∧
    (derive_from_groove p).fillet_radius =
      p.groove_params.fillet_radius *
        ((p.groove_params.width - p.assembly_clearance) / p.groove_params.width) ∧
    (0 < p.assembly_clearance → p.assembly_clearance < p.groove_params.width →
     0 < p.retention_offset → p.retention_offset < p.groove_params.depth →
     0 < (derive_from_groove p).width ∧ 0 < (derive_from_groove p).depth) := by
  refine ⟨rfl, rfl, rfl, ?_, ?_⟩
  · rcases hf.lt_or_eq with h | h
    · simp [derive_from_groove, if_pos h]
    · simp [derive_from_groove, ← h]
  · intro _ hcw _ hrd
    constructor <;> simp [derive_from_groove] <;> linarith

/-- C9 witness: the derivation equalities and positivity at concrete
parameters with a positive source fillet. -/
theorem derive_from_groove_amended_witness :
    (derive_from_groove pDefaults).width =
      pDefaults.groove_params.width - pDefaults.assembly_clearance ∧
    (derive_from_groove pDefaults).depth =
      pDefaults.groove_params.depth - pDefaults.retention_offset ∧
    (derive_from_groove pDefaults).type = pDefaults.groove_params.type ∧
    (derive_from_groove pDefaults).fillet_radius =
      pDefaults.groove_params.fillet_radius *
        ((pDefaults.groove_params.width - pDefaults.assembly_clearance) /
          pDefaults.groove_params.width) ∧
    (0 < pDefaults.assembly_clearance →
     pDefaults.assembly_clearance < pDefaults.groove_params.width →
     0 < pDefaults.retention_offset →
     pDefaults.retention_offset < pDefaults.groove_params.depth →
     0 < (derive_from_groove pDefaults).width ∧
     0 < (derive_from_groove pDefaults).depth) :=
  derive_from_groove_amended pDefaults (by norm_num [pDefaults])

/-- C9 counterexample: for a source fillet radius of -1 (width 2,
clearance 1, so the claimed scaled fillet would be -1/2) the code returns
derived fillet 0, refuting the unconditional proportional-scaling claim. -/
theorem derive_fillet_counterexample :
    (derive_from_groove pNegFillet).fillet_radius = 0 ∧
    pNegFillet.groove_params.fillet_radius *
      ((pNegFillet.groove_params.width - pNegFillet.assembly_clearance) /
        pNegFillet.groove_params.width) = -(1/2) ∧
    (derive_from_groove pNegFillet).fillet_radius ≠
      pNegFillet.groove_params.fillet_radius *
        ((pNegFillet.groove_params.width - pNegFillet.assembly_clearance) /
          pNegFillet.groove_params.width) := by
  refine ⟨?_, ?_, ?_⟩ <;> norm_num [derive_from_groove, pNegFillet]

/-- Rectangular groove parameters with height 7 and the dataclass default
length 10. -/
def pHeightSeven : GrooveParameters := { width := 5, depth := 5, height := 7 }

/-- Triangular groove parameters with width 2 and depth 5. -/
def pTriC6 : GrooveParameters := { width := 2, depth := 5, type := GrooveType.TRIANGLE }

/-- C6 counterexample: for width 2 and depth 5 the code places the first
triangle vertex at Z = -5, while the claim (captured by
specTriangleVertices) puts it at Z = 0: the triangle's position along the
depth axis is not fixed by the width alone and not independent of the
depth field. -/
theorem triangle_vertex_position_counterexample :
    (triangleVertices pTriC6).1.z = -5 ∧
    (specTriangleVertices pTriC6.width).1.z = 0 ∧
    (triangleVertices pTriC6).1.z ≠ (specTriangleVertices pTriC6.width).1.z := by
  refine ⟨?_, rfl, ?_⟩ <;> norm_num [triangleVertices, specTriangleVertices, pTriC6]

/-- C6 (amended): for the triangular kind, create_shape places the two
base vertices at (-width/2, 0, -depth) and (width/2, 0, -depth) and the
apex at (0, 0, -depth + width * sqrt 3 / 2); the Z-extent of the triangle
(apex minus base) equals width * sqrt 3 / 2 and is fixed by the width
alone, as claimed, but the triangle sits on the cavity floor (base plane
at Z = -depth, apex pointing toward the surface), so its position along
the depth axis depends on the supplied depth field. -/
theorem triangle_vertices_amended (p : GrooveParameters) :
    (triangleVertices p).1 = ⟨-(p.width : ℝ) / 2, 0, -(p.depth : ℝ)⟩ ∧
    (triangleVertices p).2.1 = ⟨(p.width : ℝ) / 2, 0, -(p.depth : ℝ)⟩ ∧
    (triangleVertices p).2.2 =
      ⟨0, 0, -(p.depth : ℝ) + (p.width : ℝ) * Real.sqrt 3 / 2⟩ ∧
    (triangleVertices p).2.2.z - (triangleVertices p).1.z =
      (p.width : ℝ) * Real.sqrt 3 / 2 := by
  refine ⟨rfl, rfl, rfl, ?_⟩
  simp only [triangleVertices]
  ring

/-- The far Z coordinate of every groove profile is -depth, for all four
shape kinds. -/
theorem grooveZSpan_far (q : GrooveParameters) : (grooveZSpan q).1 = -(q.depth : ℝ) := by
  cases h : q.type <;> simp [grooveZSpan, h]

/-- A validated triangular clip: source groove width 2 and depth 5,
clearance 1, retention offset 1, clip height 10. -/
def pTriClip : ClipParameters :=
  { groove_params := { width := 2, depth := 5, type := GrooveType.TRIANGLE },
    height := 10, assembly_clearance := 1, retention_offset := 1 }

/-- C1 (amended): for a validated clip the far Z coordinate of the shape
returned by ClipGenerator.create_shape always equals -depth of the source
groove, flush with the source far face; for the non-triangular kinds the
source span is Z from -depth to 0 and the clip span is exactly from
-depth to -retentionOffset, as claimed.  For the triangular kind the near
coordinate is -depth + (width - clearance) * sqrt 3 / 2 instead of
-retentionOffset (see the counterexample). -/
theorem clip_recess_amended (p : ClipParameters)
    (_hval : (p.validate).1 = true) :
    (clipZSpan p).1 = -(p.groove_params.depth : ℝ) ∧
    (p.groove_params.type ≠ GrooveType.TRIANGLE →
      grooveZSpan p.groove_params = (-(p.groove_params.depth : ℝ), 0) ∧
      clipZSpan p = (-(p.groove_params.depth : ℝ), -(p.retention_offset : ℝ))) := by
  have hfst : (grooveZSpan (derive_from_groove p)).1 =
      -(((p.groove_params.depth - p.retention_offset : ℚ)) : ℝ) := by
    simpa [derive_from_groove] using grooveZSpan_far (derive_from_groove p)
  constructor
  · simp only [clipZSpan]
    split_ifs with hr
    · rw [hfst]; push_cast; ring
    · rw [hfst, not_not.mp hr]; push_cast; ring
  · intro htri
    have hspan : grooveZSpan p.groove_params = (-(p.groove_params.depth : ℝ), 0) := by
      cases h : p.groove_params.type
      case TRIANGLE => exact absurd h htri
      all_goals simp [grooveZSpan, h]
    have hspan2 : grooveZSpan (derive_from_groove p) =
        (-(((p.groove_params.depth - p.retention_offset : ℚ)) : ℝ), 0) := by
      cases h : p.groove_params.type
      case TRIANGLE => exact absurd h htri
      all_goals simp [grooveZSpan, derive_from_groove, h]
    refine ⟨hspan, ?_⟩
    simp only [clipZSpan, hspan2]
    split_ifs with hr
    · simp only [Prod.mk.injEq]
      constructor <;> [skip; skip] <;> push_cast <;> ring
    · rw [not_not.mp hr]
      push_cast
      norm_num

/-- C1 witness: the recess span at the concrete validated rectangular
clip built from the default groove (depth 1, offset 1/10). -/
theorem clip_recess_amended_witness :
    (clipZSpan pDefaults).1 = -(pDefaults.groove_params.depth : ℝ) ∧
    (pDefaults.groove_params.type ≠ GrooveType.TRIANGLE →
      grooveZSpan pDefaults.groove_params = (-(pDefaults.groove_params.depth : ℝ), 0) ∧
      clipZSpan pDefaults =
        (-(pDefaults.groove_params.depth : ℝ), -(pDefaults.retention_offset : ℝ))) :=
  clip_recess_amended pDefaults (by norm_num [ClipParameters.validate, pDefaults])

/-- C1 counterexample: the triangular clip pTriClip passes validation,
its far face is flush at Z = -5, but its near coordinate is
-5 + sqrt 3 / 2 < -4, not -retentionOffset = -1 (the difference exceeds
3, far outside the 1e-6 tolerance), refuting the claim for the triangular
kind. -/
theorem clip_recess_triangle_counterexample :
    (pTriClip.validate).1 = true ∧
    pTriClip.retention_offset = 1 ∧
    (clipZSpan pTriClip).1 = -5 ∧
    (clipZSpan pTriClip).2 < -4 ∧
    (clipZSpan pTriClip).2 ≠ -(pTriClip.retention_offset : ℝ) := by
  have hs3 : Real.sqrt 3 < 2 := by
    nlinarith [Real.sq_sqrt (by norm_num : (0:ℝ) ≤ 3), Real.sqrt_nonneg 3]
  have hspan : clipZSpan pTriClip = (-5, -5 + Real.sqrt 3 / 2) := by
    simp only [clipZSpan, grooveZSpan, derive_from_groove, pTriClip]
    norm_num [Prod.ext_iff]
    ring
  refine ⟨by norm_num [ClipParameters.validate, pTriClip], rfl, ?_, ?_, ?_⟩
  · rw [hspan]
  · rw [hspan]
    simp only
    linarith
  · rw [hspan]
    simp only [pTriClip]
    push_cast
    intro hcontra
    nlinarith [Real.sqrt_nonneg 3]

/-- C5: the height-fidelity claim is broken by the code.  The rectangular
branch of GrooveGenerator.create_shape extrudes the box over the length
field, not the height field (groove_generator.py line 56 reads
self.params.length), while the dataclass documents height as the extrusion
height.  With height 7 and the default length 10 the measured extent along
the height axis is 10, not 7. -/
theorem rect_height_extent_code_bug :
    pHeightSeven.type = GrooveType.RECTANGULAR ∧
    pHeightSeven.height = 7 ∧
    boundingYExtent pHeightSeven = 10 ∧
    boundingYExtent pHeightSeven ≠ pHeightSeven.height := by
  refine ⟨rfl, rfl, rfl, ?_⟩
  norm_num [boundingYExtent, pHeightSeven]

/-- The final solid produced by the boolean stages of phase 4, as a
function of the oriented thickened body. -/
def pipelineFinalSolid {S : Type} (env : PipelineEnv S) (rp : RuntimeParams)
    (ob : S × Bool) : S :=
  let placedIdxs :=
    (List.range (REFERENCE_CENTROIDS.take rp.groove_count).length).filter env.frameFound
  clipFuseStage env (grooveCutStage env ob.1 (placedIdxs.map env.placedGroove))
    (placedIdxs.map env.placedClip)

theorem pipelinePhase6_finalShape {S : Type} (env : PipelineEnv S)
    (rp : RuntimeParams) (ob : S × Bool) (tried : List ℚ) :
    (pipelinePhase6 env rp ob tried).finalShape =
      some (pipelineFinalSolid env rp ob) := by
  simp only [pipelinePhase6, pipelineFinalSolid]
  split_ifs <;> rfl

theorem pipelinePhase6_exported {S : Type} (env : PipelineEnv S)
    (rp : RuntimeParams) (ob : S × Bool) (tried : List ℚ) :
    (pipelinePhase6 env rp ob tried).exported = true := by
  simp only [pipelinePhase6]
  split_ifs <;> rfl

theorem pipelinePhase6_reversed {S : Type} (env : PipelineEnv S)
    (rp : RuntimeParams) (ob : S × Bool) (tried : List ℚ) :
    (pipelinePhase6 env rp ob tried).reversedOrientation = ob.2 := by
  simp only [pipelinePhase6]
  split_ifs <;> rfl

theorem pipelinePhase6_placements {S : Type} (env : PipelineEnv S)
    (rp : RuntimeParams) (ob : S × Bool) (tried : List ℚ) :
    (pipelinePhase6 env rp ob tried).placementsAttempted =
      (REFERENCE_CENTROIDS.take rp.groove_count).length := by
  simp only [pipelinePhase6]
  split_ifs <;> rfl

theorem pipelinePhase6_success {S : Type} (env : PipelineEnv S)
    (rp : RuntimeParams) (ob : S × Bool) (tried : List ℚ) :
    (pipelinePhase6 env rp ob tried).success = true ↔
      env.writeStatus (pipelineFinalSolid env rp ob) = 1 := by
  simp only [pipelinePhase6, pipelineFinalSolid]
  split_ifs with h
  · exact iff_of_true rfl h
  · exact iff_of_false (by simp) h

theorem pipelinePhase6_outcome {S : Type} (env : PipelineEnv S)
    (rp : RuntimeParams) (ob : S × Bool) (tried : List ℚ) :
    ((pipelinePhase6 env rp ob tried).success = true ∧
     (pipelinePhase6 env rp ob tried).message = "Success") ∨
    ((pipelinePhase6 env rp ob tried).success = false ∧
     (pipelinePhase6 env rp ob tried).message = "Export Failed") := by
  simp only [pipelinePhase6]
  split_ifs <;> simp

/-- When the phase 1 gates pass, the negative-offset thicken completes
and the clip validation succeeds, run_pipeline is exactly its phase 4-6
tail applied to the orientation-corrected thickened body. -/
theorem run_pipeline_phase6_eq (S : Type) (env : PipelineEnv S)
    (rp : RuntimeParams)
    (hr : env.readStatus = 1) (hi : env.valid env.inputShape = true)
    (h1 : env.thickenDone (-|rp.thickness|) = true)
    (hv : ((clip_params_of rp).validate).1 = true) :
    run_pipeline env rp =
      pipelinePhase6 env rp (orientFix env (env.thickenShape (-|rp.thickness|)))
        [-|rp.thickness|] := by
  simp [run_pipeline, thickenAttempt, hr, hi, h1, hv]

/-- The clip validation of the end-to-end example parameters succeeds. -/
theorem rpBase_validate : ((clip_params_of rpBase).validate).1 = true := by
  norm_num [clip_params_of, groove_params_of, rpBase, ClipParameters.validate]

/-- C7: the thickening stage attempts the offset -|t| first and uses a
completed negative attempt; when the negative attempt does not complete
but the positive one does, run_pipeline continues from the
positive-offset body with both attempts recorded; when both fail,
run_pipeline returns the thickening failure result and performs no
further phase (nothing placed, nothing built, no export); a completed
thicken with negative signed volume has its orientation reversed; and
such a reversal is not a failure: the pipeline continues to export. -/
theorem thickening_fallback_spec :
    (∀ (S : Type) (env : PipelineEnv S) (t : ℚ),
      env.thickenDone (-|t|) = true →
      thickenAttempt env (-|t|) = some (env.thickenShape (-|t|))) ∧
    (∀ (S : Type) (env : PipelineEnv S) (rp : RuntimeParams),
      env.readStatus = 1 → env.valid env.inputShape = true →
      env.thickenDone (-|rp.thickness|) = false →
      env.thickenDone |rp.thickness| = true →
      ((clip_params_of rp).validate).1 = true →
      run_pipeline env rp =
        pipelinePhase6 env rp (orientFix env (env.thickenShape |rp.thickness|))
          [-|rp.thickness|, |rp.thickness|]) ∧
    (∀ (S : Type) (env : PipelineEnv S) (rp : RuntimeParams),
      env.readStatus = 1 → env.valid env.inputShape = true →
      env.thickenDone (-|rp.thickness|) = false →
      env.thickenDone |rp.thickness| = false →
      run_pipeline env rp =
        { success := false, message := "Thickening failed.",
          thickenTried := [-|rp.thickness|, |rp.thickness|] }) ∧
    (∀ (S : Type) (env : PipelineEnv S) (b : S),
      env.volume b < 0 → orientFix env b = (env.reverse b, true)) ∧
    (∀ (S : Type) (env : PipelineEnv S) (rp : RuntimeParams),
      env.readStatus = 1 → env.valid env.inputShape = true →
      env.thickenDone (-|rp.thickness|) = true →
      env.volume (env.thickenShape (-|rp.thickness|)) < 0 →
      ((clip_params_of rp).validate).1 = true →
      (run_pipeline env rp).reversedOrientation = true ∧
      (run_pipeline env rp).exported = true ∧
      (run_pipeline env rp).message ≠ "Thickening failed.") := by
  refine ⟨?_, ?_, ?_, ?_, ?_⟩
  · intro S env t h
    simp [thickenAttempt, h]
  · intro S env rp hr hi h1 h2 hv
    simp [run_pipeline, thickenAttempt, hr, hi, h1, h2, hv]
  · intro S env rp hr hi h1 h2
    simp [run_pipeline, thickenAttempt, hr, hi, h1, h2]
  · intro S env b h
    simp [orientFix, h]
  · intro S env rp hr hi h1 hvol hv
    rw [run_pipeline_phase6_eq S env rp hr hi h1 hv]
    refine ⟨?_, pipelinePhase6_exported env rp _ _, ?_⟩
    · rw [pipelinePhase6_reversed]
      simp [orientFix, hvol]
    · rcases pipelinePhase6_outcome env rp
          (orientFix env (env.thickenShape (-|rp.thickness|))) [-|rp.thickness|]
        with ⟨_, hm⟩ | ⟨_, hm⟩ <;> rw [hm] <;> decide

/-- Kernel oracle on which both thickening directions fail. -/
def envBothFail : PipelineEnv ℕ := { happyEnv with thickenDone := fun _ => false }

/-- Kernel oracle on which the negative offset fails and the positive
offset succeeds. -/
def envNegFails : PipelineEnv ℕ :=
  { happyEnv with thickenDone := fun t => decide (0 ≤ t) }

/-- Kernel oracle reporting a negative signed volume for every solid. -/
def envNegVolume : PipelineEnv ℕ := { happyEnv with volume := fun _ => -1 }

/-- C7 witness: the thickening fallback behavior at the concrete oracles:
negative attempt used when it completes, positive retry recorded when the
negative fails, full failure result when both fail, and reversal plus
continuation to export on a negative volume. -/
theorem thickening_fallback_spec_witness :
    thickenAttempt happyEnv (-|rpBase.thickness|) =
      some (happyEnv.thickenShape (-|rpBase.thickness|)) ∧
    run_pipeline envNegFails rpBase =
      pipelinePhase6 envNegFails rpBase
        (orientFix envNegFails (envNegFails.thickenShape |rpBase.thickness|))
        [-|rpBase.thickness|, |rpBase.thickness|] ∧
    run_pipeline envBothFail rpBase =
      { success := false, message := "Thickening failed.",
        thickenTried := [-|rpBase.thickness|, |rpBase.thickness|] } ∧
    orientFix envNegVolume 1 = (envNegVolume.reverse 1, true) ∧
    (run_pipeline envNegVolume rpBase).reversedOrientation = true ∧
    (run_pipeline envNegVolume rpBase).exported = true ∧
    (run_pipeline envNegVolume rpBase).message ≠ "Thickening failed." := by
  obtain ⟨t1, t2, t3, t4, t5⟩ := thickening_fallback_spec
  have hnf1 : envNegFails.thickenDone (-|rpBase.thickness|) = false := by
    norm_num [envNegFails, happyEnv, rpBase]
  have hnf2 : envNegFails.thickenDone |rpBase.thickness| = true := by
    norm_num [envNegFails, happyEnv, rpBase]
  have hvol : envNegVolume.volume (envNegVolume.thickenShape (-|rpBase.thickness|)) < 0 := by
    norm_num [envNegVolume, happyEnv]
  obtain ⟨w1, w2, w3⟩ := t5 ℕ envNegVolume rpBase rfl rfl rfl hvol rpBase_validate
  exact ⟨t1 ℕ happyEnv rpBase.thickness rfl,
    t2 ℕ envNegFails rpBase rfl rfl hnf1 hnf2 rpBase_validate,
    t3 ℕ envBothFail rpBase rfl rfl rfl rfl,
    t4 ℕ envNegVolume 1 (by norm_num [envNegVolume, happyEnv]),
    w1, w2, w3⟩

/-- C2 (amended): once phases 1 to 4 pass, the pipeline always proceeds
to export: phase 5 computes the final validity check but run_pipeline
ignores its boolean result, so the export phase is reached regardless of
it, and the only failure that can still arise afterwards is an export
(write) failure.  The claimed transition to a failed result on a negative
phase-5 check does not exist in the code. -/
theorem export_reached_regardless_of_final_check (S : Type)
    (env : PipelineEnv S) (rp : RuntimeParams)
    (hr : env.readStatus = 1) (hi : env.valid env.inputShape = true)
    (h1 : env.thickenDone (-|rp.thickness|) = true)
    (hv : ((clip_params_of rp).validate).1 = true) :
    (run_pipeline env rp).exported = true ∧
    ((run_pipeline env rp).success = false →
      (run_pipeline env rp).message = "Export Failed") := by
  rw [run_pipeline_phase6_eq S env rp hr hi h1 hv]
  refine ⟨pipelinePhase6_exported env rp _ _, ?_⟩
  rcases pipelinePhase6_outcome env rp
      (orientFix env (env.thickenShape (-|rp.thickness|))) [-|rp.thickness|]
    with ⟨hs, _⟩ | ⟨_, hm⟩
  · intro h
    rw [hs] at h
    exact Bool.noConfusion h
  · intro _
    exact hm

/-- C2 witness: the export phase is reached on the all-success oracle with
the end-to-end example parameters. -/
theorem export_reached_regardless_of_final_check_witness :
    (run_pipeline happyEnv rpBase).exported = true ∧
    ((run_pipeline happyEnv rpBase).success = false →
      (run_pipeline happyEnv rpBase).message = "Export Failed") :=
  export_reached_regardless_of_final_check ℕ happyEnv rpBase rfl rfl rfl
    rpBase_validate

/-- Kernel oracle on which the input shape (0) is the only valid shape, so
the phase-5 check on the final solid (1) reports invalid; frame resolution
fails everywhere, leaving the thickened body as the final solid. -/
def envC2 : PipelineEnv ℕ :=
  { happyEnv with valid := fun s => decide (s = 0), frameFound := fun _ => false }

/-- C2 counterexample: on envC2 every gate up to phase 4 passes, the
phase-5 validity check of the final solid (shape 1) reports false, yet
run_pipeline exports and returns success, refuting the claimed direct
transition to a failed result that skips export. -/
theorem final_check_ignored_counterexample :
    (run_pipeline envC2 rpBase).finalShape = some 1 ∧
    envC2.valid 1 = false ∧
    (run_pipeline envC2 rpBase).exported = true ∧
    (run_pipeline envC2 rpBase).success = true := by
  have heq := run_pipeline_phase6_eq ℕ envC2 rpBase rfl rfl rfl rpBase_validate
  have hob : orientFix envC2 (envC2.thickenShape (-|rpBase.thickness|)) = (1, false) := by
    norm_num [orientFix, envC2, happyEnv]
  have hfs : pipelineFinalSolid envC2 rpBase ((1 : ℕ), false) = 1 := by
    have hidx : (List.range
        (REFERENCE_CENTROIDS.take rpBase.groove_count).length).filter
          envC2.frameFound = [] := by decide
    simp only [pipelineFinalSolid]
    rw [hidx]
    rfl
  refine ⟨?_, rfl, ?_, ?_⟩
  · rw [heq, hob, pipelinePhase6_finalShape, hfs]
  · rw [heq]
    exact pipelinePhase6_exported envC2 rpBase _ _
  · rw [heq, hob, pipelinePhase6_success, hfs]
    rfl

/-- C10 (amended): once the gates pass, the pipeline attempts feature
placement at exactly the first min(groove_count, 7) points of the
reference centroid list: exactly groove_count points when groove_count is
at most 7, but never more than the 7 points the list holds, although the
count is validated up to 100. -/
theorem placements_attempted_min_seven (S : Type) (env : PipelineEnv S)
    (rp : RuntimeParams)
    (hr : env.readStatus = 1) (hi : env.valid env.inputShape = true)
    (h1 : env.thickenDone (-|rp.thickness|) = true)
    (hv : ((clip_params_of rp).validate).1 = true) :
    (run_pipeline env rp).placementsAttempted = min rp.groove_count 7 := by
  rw [run_pipeline_phase6_eq S env rp hr hi h1 hv, pipelinePhase6_placements,
    List.length_take]
  rfl

/-- C10 witness: with the end-to-end example parameters (count 5) the
all-success run attempts exactly min 5 7 = 5 placements. -/
theorem placements_attempted_min_seven_witness :
    (run_pipeline happyEnv rpBase).placementsAttempted =
      min rpBase.groove_count 7 :=
  placements_attempted_min_seven ℕ happyEnv rpBase rfl rfl rfl rpBase_validate

/-- The end-to-end example parameters with a requested count of 8. -/
def rpEight : RuntimeParams := { rpBase with groove_count := 8 }

/-- C10 counterexample: with a requested (and validated) count of 8, the
reference list holds only 7 points, so the run attempts placement at 7
locations, not 8, refuting the claim for every count in 8..100. -/
theorem placement_count_eight_counterexample :
    (1:ℕ) ≤ 8 ∧ (8:ℕ) ≤ 100 ∧ rpEight.groove_count = 8 ∧
    (run_pipeline happyEnv rpEight).placementsAttempted = 7 ∧
    (run_pipeline happyEnv rpEight).placementsAttempted ≠ rpEight.groove_count := by
  have hval8 : ((clip_params_of rpEight).validate).1 = true := rpBase_validate
  have heq := run_pipeline_phase6_eq ℕ happyEnv rpEight rfl rfl rfl hval8
  refine ⟨by norm_num, by norm_num, rfl, ?_, ?_⟩
  · rw [heq, pipelinePhase6_placements]
    rfl
  · rw [heq, pipelinePhase6_placements]
    decide

/-- Kernel oracle with injective boolean-stage operators over
natural-number shape tokens: fuse a b = 10 a + b, cut a b = a + 100 b,
every operation reporting done. -/
def envC3 : PipelineEnv ℕ :=
  { happyEnv with fuse := fun a b => 10 * a + b, cut := fun a b => a + 100 * b }

/-- envC3 but the per-tool cut of tool 2 does not report done. -/
def envC3cut : PipelineEnv ℕ :=
  { envC3 with cutDone := fun _ b => decide (b ≠ 2) }

/-- envC3 but fusing with operand 2 or with the compound tool 23 does not
report done, so the bulk fuse falls back and one fallback step fails. -/
def envC3fuse : PipelineEnv ℕ :=
  { envC3 with fuseDone := fun _ b => decide (b ≠ 2 ∧ b ≠ 23) }

/-- C3: the claim holds for the protrusion-union stage but is broken by
the code for the cavity-subtraction stage.  Line 226 of
gen_cad_pipeline.py accepts the bulk result only when
GProp_GProps().Mass() != 0, but that expression reads the mass of a
freshly default-constructed GProp object, which is always 0, so the bulk
cut result is discarded and the sequential fallback runs even though the
bulk cut reports completion.  Concretely, at body 1 with tools [2, 3] and
every operation done: the compound tool is 23, the bulk cut would yield
2301, yet grooveCutStage returns the fallback value 501; clipFuseStage
does return its bulk result; and in each fallback a step that does not
report done leaves the running result unchanged (tool 2 skipped: 301 for
the cut fallback, clip 2 skipped: 13 for the fuse fallback). -/
theorem bulk_cut_mass_check_code_bug :
    freshGPropMass = 0 ∧
    combineByFuse envC3 2 [3] = 23 ∧
    envC3.cutDone 1 (combineByFuse envC3 2 [3]) = true ∧
    envC3.cut 1 (combineByFuse envC3 2 [3]) = 2301 ∧
    grooveCutStage envC3 1 [2, 3] = 501 ∧
    grooveCutStage envC3 1 [2, 3] ≠ envC3.cut 1 (combineByFuse envC3 2 [3]) ∧
    clipFuseStage envC3 1 [2, 3] = envC3.fuse 1 (combineByFuse envC3 2 [3]) ∧
    envC3cut.cutDone 1 2 = false ∧
    grooveCutStage envC3cut 1 [2, 3] = 301 ∧
    envC3fuse.fuseDone 1 2 = false ∧
    clipFuseStage envC3fuse 1 [2, 3] = 13 := by
  decide
